import Mathlib

/-!
Verification development for the aws-ecs-service-recommendations repository.

The Python sources are shallowly embedded: CloudWatch datapoint dicts become
records with rational number fields (Python floats are modelled as rationals),
Python dicts that are used as ordered key/value maps become association lists,
exceptions become `Except`, and external effects (the Bedrock model call, the
JSON library, the DynamoDB client) become explicit oracle parameters so that
every private function of the repository is a total Lean function.
-/

namespace EcsRec

/-- A CloudWatch datapoint carrying an `Average` statistic, as consumed by
`ai_recommender._summarize_metrics` and `ai_recommender_service`. -/
structure AvgDp where
  Average : ℚ
deriving DecidableEq

/-- A CloudWatch datapoint carrying a `Sum` statistic (`request_count` and the
HTTP status-code series in `ecs_monitor`). -/
structure SumDp where
  Sum : ℚ
deriving DecidableEq

/-- `sum(dp["Average"] for dp in l) / len(l)`; the guard `if l` in the Python
code keeps `l` nonempty at every call site (division by zero cannot occur). -/
def meanAvg (l : List AvgDp) : ℚ := (l.map AvgDp.Average).sum / l.length

/-- `sum(dp["Sum"] for dp in l) / len(l)`. -/
def meanSum (l : List SumDp) : ℚ := (l.map SumDp.Sum).sum / l.length

/- Default configuration values from `config.py` (environment overrides are
not modelled except where a claim quantifies over them). -/
namespace Config

def RESPONSE_TIME_THRESHOLD : ℚ := 2

def REQUEST_VOLUME_THRESHOLD : ℚ := 1000

def CPU_HIGH_THRESHOLD : ℚ := 80

def MEMORY_HIGH_THRESHOLD : ℚ := 80

def ERROR_LOG_THRESHOLD : ℕ := 10

def CHAT_HISTORY_LIMIT : ℕ := 10

end Config

/-- The per-target-group time series of `service["target_group"][tg_name]`
that `_summarize_metrics` reads; a missing key is modelled as `[]` (both are
falsy in the Python truthiness tests). -/
structure TgData where
  response_time : List AvgDp
  unhealthy_hosts : List AvgDp
  request_count : List SumDp
deriving DecidableEq

/-- The `service["metrics"]` dict. -/
structure ServiceMetrics where
  cpu : List AvgDp
  memory : List AvgDp
deriving DecidableEq

/-- One element of the per-cluster service list fed to `_summarize_metrics`:
`{"service": ..., "metrics": ..., "target_group": ...}` with the target-group
dict as an insertion-ordered association list. -/
structure ServiceRecord where
  service : String
  metrics : ServiceMetrics
  target_group : List (String × TgData)
deriving DecidableEq

/-- The `cluster_summary` dict built by `_summarize_metrics` for one cluster. -/
structure ClusterSummary where
  service_count : ℕ
  high_cpu_services : List String
  high_memory_services : List String
  high_response_time_services : List String
  unhealthy_target_services : List String
  high_traffic_services : List String
  avg_cpu : ℚ
  avg_memory : ℚ
  avg_response_time : ℚ
  total_requests : ℚ
deriving DecidableEq

/-- The loop accumulator of `_summarize_metrics` (the growing summary lists
together with the local accumulation variables `total_cpu`, `total_memory`,
`total_response_time`, `total_requests`, `service_count`,
`response_time_count`). -/
structure SumAcc where
  high_cpu_services : List String
  high_memory_services : List String
  high_response_time_services : List String
  unhealthy_target_services : List String
  high_traffic_services : List String
  total_cpu : ℚ
  total_memory : ℚ
  total_response_time : ℚ
  total_requests : ℚ
  service_count : ℕ
  response_time_count : ℕ
deriving DecidableEq

/-- The accumulator at the start of a cluster's loop. -/
def initAcc : SumAcc := ⟨[], [], [], [], [], 0, 0, 0, 0, 0, 0⟩

/-- The Python tag `f"{service_name}({tg_name})"`. -/
def tgTag (service_name tg_name : String) : String :=
  service_name ++ "(" ++ tg_name ++ ")"

/-- Body of the `for tg_name, tg_data in target_group_metrics.items()` loop of
`_summarize_metrics` (`ai_recommender.py` lines 146-182): response-time,
unhealthy-host and request-volume analysis for one target group. -/
def processTgItem (service_name : String) (acc : SumAcc) (item : String × TgData) : SumAcc :=
  let tg_name := item.1
  let tg_data := item.2
  let acc1 :=
    if tg_data.response_time ≠ [] then
      let avg_response_time := meanAvg tg_data.response_time
      let accA := { acc with
        total_response_time := acc.total_response_time + avg_response_time,
        response_time_count := acc.response_time_count + 1 }
      if avg_response_time > Config.RESPONSE_TIME_THRESHOLD then
        { accA with high_response_time_services :=
            accA.high_response_time_services ++ [tgTag service_name tg_name] }
      else accA
    else acc
  let acc2 :=
    if tg_data.unhealthy_hosts ≠ [] then
      if meanAvg tg_data.unhealthy_hosts > 0 then
        { acc1 with unhealthy_target_services :=
            acc1.unhealthy_target_services ++ [tgTag service_name tg_name] }
      else acc1
    else acc1
  if tg_data.request_count ≠ [] then
    let avg_requests := meanSum tg_data.request_count
    let accA := { acc2 with total_requests := acc2.total_requests + avg_requests }
    if avg_requests > Config.REQUEST_VOLUME_THRESHOLD then
      { accA with high_traffic_services :=
          accA.high_traffic_services ++ [tgTag service_name tg_name] }
    else accA
  else acc2

/-- Body of the `for service in services` loop of `_summarize_metrics`
(`ai_recommender.py` lines 122-184): CPU analysis, memory analysis, the
target-group loop, and the `service_count` increment. -/
def processService (acc : SumAcc) (service : ServiceRecord) : SumAcc :=
  let service_name := service.service
  let service_metrics := service.metrics
  let acc1 :=
    if service_metrics.cpu ≠ [] then
      let avg_cpu := meanAvg service_metrics.cpu
      let accA := { acc with total_cpu := acc.total_cpu + avg_cpu }
      if avg_cpu > 80 then
        { accA with high_cpu_services := accA.high_cpu_services ++ [service_name] }
      else accA
    else acc
  let acc2 :=
    if service_metrics.memory ≠ [] then
      let avg_memory := meanAvg service_metrics.memory
      let accA := { acc1 with total_memory := acc1.total_memory + avg_memory }
      if avg_memory > 80 then
        { accA with high_memory_services := accA.high_memory_services ++ [service_name] }
      else accA
    else acc1
  let acc3 := service.target_group.foldl (processTgItem service_name) acc2
  { acc3 with service_count := acc3.service_count + 1 }

/-- `_summarize_metrics` restricted to a single cluster: runs the service loop
and then fills the `cluster_summary` dict, including the trailing
`if service_count > 0` / `if response_time_count > 0` average assignments. -/
def summarize_cluster (services : List ServiceRecord) : ClusterSummary :=
  let acc := services.foldl processService initAcc
  { service_count := services.length
    high_cpu_services := acc.high_cpu_services
    high_memory_services := acc.high_memory_services
    high_response_time_services := acc.high_response_time_services
    unhealthy_target_services := acc.unhealthy_target_services
    high_traffic_services := acc.high_traffic_services
    avg_cpu := if acc.service_count > 0 then acc.total_cpu / acc.service_count else 0
    avg_memory := if acc.service_count > 0 then acc.total_memory / acc.service_count else 0
    avg_response_time :=
      if acc.response_time_count > 0 then
        acc.total_response_time / acc.response_time_count
      else 0
    total_requests := if acc.service_count > 0 then acc.total_requests else 0 }

/-- `AIRecommender._summarize_metrics`: one summary per cluster, in input
order. -/
def summarize_metrics (metrics : List (String × List ServiceRecord)) :
    List (String × ClusterSummary) :=
  metrics.map (fun p => (p.1, summarize_cluster p.2))

/-! Field-tracking lemmas for the summarizer loop. -/

lemma processTgItem_high_cpu (n : String) (acc : SumAcc) (it : String × TgData) :
    (processTgItem n acc it).high_cpu_services = acc.high_cpu_services := by
  simp only [processTgItem]
  repeat' split
  all_goals rfl

lemma processTgItem_high_memory (n : String) (acc : SumAcc) (it : String × TgData) :
    (processTgItem n acc it).high_memory_services = acc.high_memory_services := by
  simp only [processTgItem]
  repeat' split
  all_goals rfl

lemma processTgItem_total_cpu (n : String) (acc : SumAcc) (it : String × TgData) :
    (processTgItem n acc it).total_cpu = acc.total_cpu := by
  simp only [processTgItem]
  repeat' split
  all_goals rfl

lemma processTgItem_total_memory (n : String) (acc : SumAcc) (it : String × TgData) :
    (processTgItem n acc it).total_memory = acc.total_memory := by
  simp only [processTgItem]
  repeat' split
  all_goals rfl

lemma processTgItem_service_count (n : String) (acc : SumAcc) (it : String × TgData) :
    (processTgItem n acc it).service_count = acc.service_count := by
  simp only [processTgItem]
  repeat' split
  all_goals rfl

lemma processTgItem_total_response_time (n : String) (acc : SumAcc) (it : String × TgData) :
    (processTgItem n acc it).total_response_time =
      acc.total_response_time +
        (if it.2.response_time ≠ [] then meanAvg it.2.response_time else 0) := by
  simp only [processTgItem]
  repeat' split
  all_goals simp_all

lemma processTgItem_response_time_count (n : String) (acc : SumAcc) (it : String × TgData) :
    (processTgItem n acc it).response_time_count =
      acc.response_time_count + (if it.2.response_time ≠ [] then 1 else 0) := by
  simp only [processTgItem]
  repeat' split
  all_goals simp_all

lemma processTgItem_total_requests (n : String) (acc : SumAcc) (it : String × TgData) :
    (processTgItem n acc it).total_requests =
      acc.total_requests +
        (if it.2.request_count ≠ [] then meanSum it.2.request_count else 0) := by
  simp only [processTgItem]
  repeat' split
  all_goals simp_all

lemma tg_foldl_high_cpu (n : String) (l : List (String × TgData)) (acc : SumAcc) :
    (l.foldl (processTgItem n) acc).high_cpu_services = acc.high_cpu_services := by
  induction l generalizing acc with
  | nil => rfl
  | cons hd tl ih => rw [List.foldl_cons, ih, processTgItem_high_cpu]

lemma tg_foldl_high_memory (n : String) (l : List (String × TgData)) (acc : SumAcc) :
    (l.foldl (processTgItem n) acc).high_memory_services = acc.high_memory_services := by
  induction l generalizing acc with
  | nil => rfl
  | cons hd tl ih => rw [List.foldl_cons, ih, processTgItem_high_memory]

lemma tg_foldl_total_cpu (n : String) (l : List (String × TgData)) (acc : SumAcc) :
    (l.foldl (processTgItem n) acc).total_cpu = acc.total_cpu := by
  induction l generalizing acc with
  | nil => rfl
  | cons hd tl ih => rw [List.foldl_cons, ih, processTgItem_total_cpu]

lemma tg_foldl_total_memory (n : String) (l : List (String × TgData)) (acc : SumAcc) :
    (l.foldl (processTgItem n) acc).total_memory = acc.total_memory := by
  induction l generalizing acc with
  | nil => rfl
  | cons hd tl ih => rw [List.foldl_cons, ih, processTgItem_total_memory]

lemma tg_foldl_service_count (n : String) (l : List (String × TgData)) (acc : SumAcc) :
    (l.foldl (processTgItem n) acc).service_count = acc.service_count := by
  induction l generalizing acc with
  | nil => rfl
  | cons hd tl ih => rw [List.foldl_cons, ih, processTgItem_service_count]

lemma tg_foldl_total_response_time (n : String) (l : List (String × TgData)) (acc : SumAcc) :
    (l.foldl (processTgItem n) acc).total_response_time =
      acc.total_response_time +
        (l.map (fun it => if it.2.response_time ≠ [] then meanAvg it.2.response_time else 0)).sum := by
  induction l generalizing acc with
  | nil => simp
  | cons hd tl ih =>
    rw [List.foldl_cons, ih, processTgItem_total_response_time]
    simp [add_assoc]

lemma tg_foldl_response_time_count (n : String) (l : List (String × TgData)) (acc : SumAcc) :
    (l.foldl (processTgItem n) acc).response_time_count =
      acc.response_time_count +
        (l.map (fun it => if it.2.response_time ≠ [] then 1 else 0)).sum := by
  induction l generalizing acc with
  | nil => simp
  | cons hd tl ih =>
    rw [List.foldl_cons, ih, processTgItem_response_time_count]
    simp [add_assoc]

lemma tg_foldl_total_requests (n : String) (l : List (String × TgData)) (acc : SumAcc) :
    (l.foldl (processTgItem n) acc).total_requests =
      acc.total_requests +
        (l.map (fun it => if it.2.request_count ≠ [] then meanSum it.2.request_count else 0)).sum := by
  induction l generalizing acc with
  | nil => simp
  | cons hd tl ih =>
    rw [List.foldl_cons, ih, processTgItem_total_requests]
    simp [add_assoc]

lemma processService_high_cpu (acc : SumAcc) (s : ServiceRecord) :
    (processService acc s).high_cpu_services =
      acc.high_cpu_services ++
        (if s.metrics.cpu ≠ [] ∧ meanAvg s.metrics.cpu > 80 then [s.service] else []) := by
  simp only [processService, tg_foldl_high_cpu]
  repeat' split
  all_goals simp_all

lemma processService_high_memory (acc : SumAcc) (s : ServiceRecord) :
    (processService acc s).high_memory_services =
      acc.high_memory_services ++
        (if s.metrics.memory ≠ [] ∧ meanAvg s.metrics.memory > 80 then [s.service] else []) := by
  simp only [processService, tg_foldl_high_memory]
  repeat' split
  all_goals simp_all

lemma processService_total_cpu (acc : SumAcc) (s : ServiceRecord) :
    (processService acc s).total_cpu =
      acc.total_cpu + (if s.metrics.cpu ≠ [] then meanAvg s.metrics.cpu else 0) := by
  simp only [processService, tg_foldl_total_cpu]
  repeat' split
  all_goals simp_all

lemma processService_total_memory (acc : SumAcc) (s : ServiceRecord) :
    (processService acc s).total_memory =
      acc.total_memory + (if s.metrics.memory ≠ [] then meanAvg s.metrics.memory else 0) := by
  simp only [processService, tg_foldl_total_memory]
  repeat' split
  all_goals simp_all

lemma processService_service_count (acc : SumAcc) (s : ServiceRecord) :
    (processService acc s).service_count = acc.service_count + 1 := by
  simp only [processService, tg_foldl_service_count]
  repeat' split
  all_goals simp_all

lemma processService_total_response_time (acc : SumAcc) (s : ServiceRecord) :
    (processService acc s).total_response_time =
      acc.total_response_time +
        (s.target_group.map
          (fun it => if it.2.response_time ≠ [] then meanAvg it.2.response_time else 0)).sum := by
  simp only [processService, tg_foldl_total_response_time]
  repeat' split
  all_goals simp_all

lemma processService_response_time_count (acc : SumAcc) (s : ServiceRecord) :
    (processService acc s).response_time_count =
      acc.response_time_count +
        (s.target_group.map (fun it => if it.2.response_time ≠ [] then 1 else 0)).sum := by
  simp only [processService, tg_foldl_response_time_count]
  repeat' split
  all_goals simp_all

lemma processService_total_requests (acc : SumAcc) (s : ServiceRecord) :
    (processService acc s).total_requests =
      acc.total_requests +
        (s.target_group.map
          (fun it => if it.2.request_count ≠ [] then meanSum it.2.request_count else 0)).sum := by
  simp only [processService, tg_foldl_total_requests]
  repeat' split
  all_goals simp_all

/-- The per-service contribution selected into `high_cpu_services`. -/
def highCpuPick (s : ServiceRecord) : List String :=
  if s.metrics.cpu ≠ [] ∧ meanAvg s.metrics.cpu > 80 then [s.service] else []

lemma svc_foldl_high_cpu (services : List ServiceRecord) (acc : SumAcc) :
    (services.foldl processService acc).high_cpu_services =
      acc.high_cpu_services ++ services.flatMap highCpuPick := by
  induction services generalizing acc with
  | nil => simp
  | cons hd tl ih =>
    rw [List.foldl_cons, ih, processService_high_cpu, List.flatMap_cons, List.append_assoc]
    rfl

lemma summarize_cluster_high_cpu (services : List ServiceRecord) :
    (summarize_cluster services).high_cpu_services = services.flatMap highCpuPick := by
  simp only [summarize_cluster, svc_foldl_high_cpu]
  rfl

/-- C1: for every input, `_summarize_metrics` puts a service into a cluster's
`high_cpu_services` list iff some record for that service has a non-empty CPU
series whose mean of `Average` samples strictly exceeds 80 (a mean of exactly
80 is excluded by the strict comparison `avg_cpu > 80`); and for the concrete
cluster with one service averaging 90 and one averaging 30, the list is
exactly the first service. -/
theorem high_cpu_list_iff_mean_gt_80 :
    (∀ (services : List ServiceRecord) (name : String),
      name ∈ (summarize_cluster services).high_cpu_services ↔
        ∃ s ∈ services, s.service = name ∧ s.metrics.cpu ≠ [] ∧ meanAvg s.metrics.cpu > 80) ∧
    (summarize_cluster
        [⟨ "service-a", ⟨[⟨90⟩], []⟩, []⟩,
         ⟨ "service-b", ⟨[⟨30⟩], []⟩, []⟩]).high_cpu_services = ["service-a"] := by
  constructor
  · intro services name
    rw [summarize_cluster_high_cpu]
    simp only [List.mem_flatMap, highCpuPick]
    constructor
    · rintro ⟨s, hs, hm⟩
      by_cases h : s.metrics.cpu ≠ [] ∧ meanAvg s.metrics.cpu > 80
      · simp only [if_pos h, List.mem_singleton] at hm
        exact ⟨s, hs, hm.symm, h.1, h.2⟩
      · simp [if_neg h] at hm
    · rintro ⟨s, hs, rfl, h1, h2⟩
      exact ⟨s, hs, by simp [h1, h2]⟩
  · rw [summarize_cluster_high_cpu]
    have h90 : meanAvg [⟨90⟩] = 90 := by norm_num [meanAvg]
    have h30 : meanAvg [⟨30⟩] = 30 := by norm_num [meanAvg]
    simp [highCpuPick, h90, h30, show (80 : ℚ) < 90 by norm_num, show ¬ (80 : ℚ) < 30 by norm_num]

/-- C1 witness: the membership criterion instantiated at a concrete
one-service cluster averaging 90. -/
theorem high_cpu_list_iff_mean_gt_80_witness :
    "service-a" ∈ (summarize_cluster [⟨ "service-a", ⟨[⟨90⟩], []⟩, []⟩]).high_cpu_services :=
  (high_cpu_list_iff_mean_gt_80.1 [⟨ "service-a", ⟨[⟨90⟩], []⟩, []⟩] "service-a").mpr
    ⟨⟨ "service-a", ⟨[⟨90⟩], []⟩, []⟩, by simp, rfl, by simp, by norm_num [meanAvg]⟩

/-! Closed forms for the numeric aggregates of one cluster summary (C3). -/

lemma svc_foldl_total_cpu (services : List ServiceRecord) (acc : SumAcc) :
    (services.foldl processService acc).total_cpu =
      acc.total_cpu +
        (services.map (fun s => if s.metrics.cpu ≠ [] then meanAvg s.metrics.cpu else 0)).sum := by
  induction services generalizing acc with
  | nil => simp
  | cons hd tl ih =>
    rw [List.foldl_cons, ih, processService_total_cpu]
    simp [add_assoc]

lemma svc_foldl_total_memory (services : List ServiceRecord) (acc : SumAcc) :
    (services.foldl processService acc).total_memory =
      acc.total_memory +
        (services.map (fun s => if s.metrics.memory ≠ [] then meanAvg s.metrics.memory else 0)).sum := by
  induction services generalizing acc with
  | nil => simp
  | cons hd tl ih =>
    rw [List.foldl_cons, ih, processService_total_memory]
    simp [add_assoc]

lemma svc_foldl_service_count (services : List ServiceRecord) (acc : SumAcc) :
    (services.foldl processService acc).service_count =
      acc.service_count + services.length := by
  induction services generalizing acc with
  | nil => simp
  | cons hd tl ih =>
    rw [List.foldl_cons, ih, processService_service_count]
    simp only [List.length_cons]
    omega

lemma svc_foldl_total_response_time (services : List ServiceRecord) (acc : SumAcc) :
    (services.foldl processService acc).total_response_time =
      acc.total_response_time +
        (services.map (fun s =>
          (s.target_group.map
            (fun it => if it.2.response_time ≠ [] then meanAvg it.2.response_time else 0)).sum)).sum := by
  induction services generalizing acc with
  | nil => simp
  | cons hd tl ih =>
    rw [List.foldl_cons, ih, processService_total_response_time]
    simp [add_assoc]

lemma svc_foldl_response_time_count (services : List ServiceRecord) (acc : SumAcc) :
    (services.foldl processService acc).response_time_count =
      acc.response_time_count +
        (services.map (fun s =>
          (s.target_group.map
            (fun it => if it.2.response_time ≠ [] then 1 else 0)).sum)).sum := by
  induction services generalizing acc with
  | nil => simp
  | cons hd tl ih =>
    rw [List.foldl_cons, ih, processService_response_time_count]
    simp only [List.map_cons, List.sum_cons]
    omega

lemma svc_foldl_total_requests (services : List ServiceRecord) (acc : SumAcc) :
    (services.foldl processService acc).total_requests =
      acc.total_requests +
        (services.map (fun s =>
          (s.target_group.map
            (fun it => if it.2.request_count ≠ [] then meanSum it.2.request_count else 0)).sum)).sum := by
  induction services generalizing acc with
  | nil => simp
  | cons hd tl ih =>
    rw [List.foldl_cons, ih, processService_total_requests]
    simp [add_assoc]

lemma summarize_cluster_avg_cpu (services : List ServiceRecord) :
    (summarize_cluster services).avg_cpu =
      (services.map (fun s => if s.metrics.cpu ≠ [] then meanAvg s.metrics.cpu else 0)).sum /
        services.length := by
  simp only [summarize_cluster, svc_foldl_service_count, svc_foldl_total_cpu, initAcc]
  cases services with
  | nil => simp
  | cons hd tl => simp

lemma summarize_cluster_avg_memory (services : List ServiceRecord) :
    (summarize_cluster services).avg_memory =
      (services.map (fun s => if s.metrics.memory ≠ [] then meanAvg s.metrics.memory else 0)).sum /
        services.length := by
  simp only [summarize_cluster, svc_foldl_service_count, svc_foldl_total_memory, initAcc]
  cases services with
  | nil => simp
  | cons hd tl => simp

lemma summarize_cluster_total_requests (services : List ServiceRecord) :
    (summarize_cluster services).total_requests =
      (services.map (fun s =>
        (s.target_group.map
          (fun it => if it.2.request_count ≠ [] then meanSum it.2.request_count else 0)).sum)).sum := by
  simp only [summarize_cluster, svc_foldl_service_count, svc_foldl_total_requests, initAcc]
  cases services with
  | nil => simp
  | cons hd tl => simp

lemma sum_ite_eq_sum_filterMap {α : Type} (l : List α) (p : α → Prop) [DecidablePred p]
    (f : α → ℚ) :
    (l.map (fun a => if p a then f a else 0)).sum =
      (l.filterMap (fun a => if p a then some (f a) else none)).sum := by
  induction l with
  | nil => rfl
  | cons hd tl ih =>
    by_cases h : p hd <;> simp [h, ih]

lemma count_ite_eq_length_filterMap {α : Type} (l : List α) (p : α → Prop) [DecidablePred p]
    (f : α → ℚ) :
    (l.map (fun a => if p a then (1 : ℕ) else 0)).sum =
      (l.filterMap (fun a => if p a then some (f a) else none)).length := by
  induction l with
  | nil => rfl
  | cons hd tl ih =>
    by_cases h : p hd
    · simp [h, ih]
      omega
    · simp [h, ih]

lemma sum_flatMap_rat {α : Type} (l : List α) (f : α → List ℚ) :
    (l.flatMap f).sum = (l.map (fun a => (f a).sum)).sum := by
  induction l with
  | nil => rfl
  | cons hd tl ih => simp [ih]

lemma length_flatMap_sum {α β : Type} (l : List α) (f : α → List β) :
    (l.flatMap f).length = (l.map (fun a => (f a).length)).sum := by
  induction l with
  | nil => rfl
  | cons hd tl ih => simp [ih]

lemma summarize_cluster_avg_response_time (services : List ServiceRecord) :
    (summarize_cluster services).avg_response_time =
      (services.flatMap (fun s =>
        s.target_group.filterMap
          (fun it => if it.2.response_time ≠ [] then some (meanAvg it.2.response_time) else none))).sum /
      (services.flatMap (fun s =>
        s.target_group.filterMap
          (fun it => if it.2.response_time ≠ [] then some (meanAvg it.2.response_time) else none))).length := by
  have hsum : ∀ s : ServiceRecord,
      (s.target_group.map
        (fun it => if it.2.response_time ≠ [] then meanAvg it.2.response_time else 0)).sum =
      (s.target_group.filterMap
        (fun it => if it.2.response_time ≠ [] then some (meanAvg it.2.response_time) else none)).sum :=
    fun s => sum_ite_eq_sum_filterMap s.target_group _ _
  have hcnt : ∀ s : ServiceRecord,
      (s.target_group.map (fun it => if it.2.response_time ≠ [] then (1 : ℕ) else 0)).sum =
      (s.target_group.filterMap
        (fun it => if it.2.response_time ≠ [] then some (meanAvg it.2.response_time) else none)).length :=
    fun s => count_ite_eq_length_filterMap s.target_group _ _
  rw [sum_flatMap_rat, length_flatMap_sum]
  simp only [summarize_cluster, svc_foldl_response_time_count, svc_foldl_total_response_time,
    initAcc, zero_add]
  simp only [hsum, hcnt]
  generalize (services.map (fun s =>
    (s.target_group.filterMap
      (fun it => if it.2.response_time ≠ [] then some (meanAvg it.2.response_time) else none)).sum)).sum = T
  generalize (services.map (fun s =>
    (s.target_group.filterMap
      (fun it => if it.2.response_time ≠ [] then some (meanAvg it.2.response_time) else none)).length)).sum = R
  rcases Nat.eq_zero_or_pos R with h | h
  · simp [h]
  · simp [h]

/-- C3 counterexample: the claim says a service whose CPU series is empty is
omitted from the fleet-wide `avg_cpu` aggregate rather than contributing a
zero, but the code divides `total_cpu` by the count of all services: with one
service averaging 90 and one with an empty CPU series, the code yields 45
(zero contributed, denominator 2), not the 90 that omission would give. -/
theorem summarizer_empty_series_counterexample :
    (summarize_cluster [⟨ "service-a", ⟨[⟨90⟩], []⟩, []⟩,
                        ⟨ "service-b", ⟨[], []⟩, []⟩]).avg_cpu = 45 ∧
    (summarize_cluster [⟨ "service-a", ⟨[⟨90⟩], []⟩, []⟩]).avg_cpu = 90 ∧
    (45 : ℚ) ≠ 90 := by
  have h90 : meanAvg [⟨90⟩] = 90 := by norm_num [meanAvg]
  refine ⟨?_, ?_, by norm_num⟩
  · rw [summarize_cluster_avg_cpu]
    simp [h90]
    norm_num
  · rw [summarize_cluster_avg_cpu]
    simp [h90]

/-- C3 (amended): each per-service mean used by the summarizer skips empty
series, and `avg_response_time` is the mean over the non-empty response-time
series only; but the fleet-wide `avg_cpu` and `avg_memory` divide by the count
of all services of the cluster, so a service with an empty CPU (or memory)
series contributes a zero to that average rather than being omitted;
`total_requests` is the sum of the per-target-group means of the `Sum`
statistic over the non-empty `request_count` series. -/
theorem summarizer_aggregates_closed_form :
    ∀ services : List ServiceRecord,
      (summarize_cluster services).avg_cpu =
        (services.map (fun s => if s.metrics.cpu ≠ [] then meanAvg s.metrics.cpu else 0)).sum /
          services.length ∧
      (summarize_cluster services).avg_memory =
        (services.map (fun s => if s.metrics.memory ≠ [] then meanAvg s.metrics.memory else 0)).sum /
          services.length ∧
      (summarize_cluster services).avg_response_time =
        (services.flatMap (fun s =>
          s.target_group.filterMap
            (fun it => if it.2.response_time ≠ [] then some (meanAvg it.2.response_time) else none))).sum /
        (services.flatMap (fun s =>
          s.target_group.filterMap
            (fun it => if it.2.response_time ≠ [] then some (meanAvg it.2.response_time) else none))).length ∧
      (summarize_cluster services).total_requests =
        (services.flatMap (fun s =>
          s.target_group.filterMap
            (fun it => if it.2.request_count ≠ [] then some (meanSum it.2.request_count) else none))).sum ∧
      (summarize_cluster services).service_count = services.length := by
  intro services
  refine ⟨summarize_cluster_avg_cpu services, summarize_cluster_avg_memory services,
    summarize_cluster_avg_response_time services, ?_, rfl⟩
  rw [summarize_cluster_total_requests, sum_flatMap_rat]
  have hsum : ∀ s : ServiceRecord,
      (s.target_group.map
        (fun it => if it.2.request_count ≠ [] then meanSum it.2.request_count else 0)).sum =
      (s.target_group.filterMap
        (fun it => if it.2.request_count ≠ [] then some (meanSum it.2.request_count) else none)).sum :=
    fun s => sum_ite_eq_sum_filterMap s.target_group _ _
  simp only [hsum]

/-!
HTTP error percentage of `ECSMonitor._get_target_group_metrics`
(`ecs_monitor.py` lines 409-420).
-/

/-- Python `round` ties-to-even rounding of a rational to an integer
(`round(x)` in Python rounds halves to the nearest even integer). -/
def pyRound (q : ℚ) : ℤ :=
  let f := Int.floor q
  let frac := q - f
  if frac < 1 / 2 then f
  else if frac > 1 / 2 then f + 1
  else if f % 2 = 0 then f else f + 1

/-- Python `round(x, 2)`: round to two decimal places, ties to even. -/
def pyRound2 (q : ℚ) : ℚ := (pyRound (q * 100) : ℚ) / 100

/-- The error-percentage computation of `_get_target_group_metrics`: sums the
`Sum` samples of the 2xx, 3xx and 4xx series (`dp.get("Sum", 0)`; a missing
key is modelled as 0 being stored, which the surrounding formatting code also
does) and applies the `total_2xx > 0` / `total_errors > 0` branching with the
`round(..., 2)` of the source. -/
def http_error_percentage (http_2xx http_3xx http_4xx : List SumDp) : ℚ :=
  let total_2xx := (http_2xx.map SumDp.Sum).sum
  let total_3xx := (http_3xx.map SumDp.Sum).sum
  let total_4xx := (http_4xx.map SumDp.Sum).sum
  let total_errors := total_3xx + total_4xx
  if total_2xx > 0 then pyRound2 (total_errors / total_2xx * 100)
  else if total_errors > 0 then 100
  else 0

/-- The error percentage as the spec sentence words it: exactly
`100 × (sum of 3xx + sum of 4xx) / (sum of 2xx)` when the 2xx sum is positive,
with no rounding; else 100 if the error sum is nonzero, else 0. -/
def specHttpErrorPercentage (http_2xx http_3xx http_4xx : List SumDp) : ℚ :=
  let total_2xx := (http_2xx.map SumDp.Sum).sum
  let total_errors := (http_3xx.map SumDp.Sum).sum + (http_4xx.map SumDp.Sum).sum
  if total_2xx > 0 then 100 * total_errors / total_2xx
  else if total_errors ≠ 0 then 100
  else 0

/-- C2 counterexample: with one 2xx datapoint of 3 and one 3xx datapoint of 1,
the code computes `round(1/3*100, 2) = 33.33`, while the claim's exact formula
gives `100/3`; the two differ, so the computed percentage does not equal the
unrounded ratio. -/
theorem http_error_percentage_not_exact :
    http_error_percentage [⟨3⟩] [⟨1⟩] [] = 3333 / 100 ∧
    specHttpErrorPercentage [⟨3⟩] [⟨1⟩] [] = 100 / 3 ∧
    http_error_percentage [⟨3⟩] [⟨1⟩] [] ≠ specHttpErrorPercentage [⟨3⟩] [⟨1⟩] [] := by
  have hround : pyRound ((10000 : ℚ) / 3) = 3333 := by
    have hfloor : Int.floor ((10000 : ℚ) / 3) = 3333 := by
      rw [Int.floor_eq_iff]
      norm_num
    simp only [pyRound, hfloor]
    norm_num
  have h1 : http_error_percentage [⟨3⟩] [⟨1⟩] [] = 3333 / 100 := by
    simp only [http_error_percentage, pyRound2, List.map_cons, List.map_nil, List.sum_cons,
      List.sum_nil]
    norm_num [hround]
  have h2 : specHttpErrorPercentage [⟨3⟩] [⟨1⟩] [] = 100 / 3 := by
    simp only [specHttpErrorPercentage, List.map_cons, List.map_nil, List.sum_cons, List.sum_nil]
    norm_num
  refine ⟨h1, h2, ?_⟩
  rw [h1, h2]
  norm_num

/-- C2 (amended): assuming every 3xx and 4xx `Sum` sample is nonnegative (as
CloudWatch counts are), the computed percentage equals the claim's formula
with the one forced change that the positive-2xx branch is rounded to two
decimal places (ties to even): `round(100 × (Σ3xx + Σ4xx) / Σ2xx, 2)` when
`Σ2xx > 0`, else 100.0 if the error sum is nonzero, else 0.0. -/
theorem http_error_percentage_rounded_formula
    (http_2xx http_3xx http_4xx : List SumDp)
    (h3 : ∀ dp ∈ http_3xx, 0 ≤ dp.Sum) (h4 : ∀ dp ∈ http_4xx, 0 ≤ dp.Sum) :
    http_error_percentage http_2xx http_3xx http_4xx =
      (let total_2xx := (http_2xx.map SumDp.Sum).sum
       let total_errors := (http_3xx.map SumDp.Sum).sum + (http_4xx.map SumDp.Sum).sum
       if total_2xx > 0 then pyRound2 (100 * total_errors / total_2xx)
       else if total_errors ≠ 0 then 100
       else 0) := by
  have herr : 0 ≤ (http_3xx.map SumDp.Sum).sum + (http_4xx.map SumDp.Sum).sum := by
    have a3 : 0 ≤ (http_3xx.map SumDp.Sum).sum :=
      List.sum_nonneg (by simpa using fun dp hdp => h3 dp hdp)
    have a4 : 0 ≤ (http_4xx.map SumDp.Sum).sum :=
      List.sum_nonneg (by simpa using fun dp hdp => h4 dp hdp)
    linarith
  simp only [http_error_percentage]
  by_cases h2 : (http_2xx.map SumDp.Sum).sum > 0
  · simp only [if_pos h2]
    congr 1
    ring
  · simp only [if_neg h2]
    by_cases he : (http_3xx.map SumDp.Sum).sum + (http_4xx.map SumDp.Sum).sum > 0
    · simp [he, ne_of_gt he]
    · have he0 : (http_3xx.map SumDp.Sum).sum + (http_4xx.map SumDp.Sum).sum = 0 := le_antisymm (not_lt.mp he) herr
      simp [he, he0]

/-- C2 amended-theorem witness: the rounded formula evaluated at the
counterexample input. -/
theorem http_error_percentage_rounded_formula_witness :
    http_error_percentage [⟨3⟩] [⟨1⟩] [] =
      (let total_2xx := (([⟨3⟩] : List SumDp).map SumDp.Sum).sum
       let total_errors := (([⟨1⟩] : List SumDp).map SumDp.Sum).sum +
         (([] : List SumDp).map SumDp.Sum).sum
       if total_2xx > 0 then pyRound2 (100 * total_errors / total_2xx)
       else if total_errors ≠ 0 then 100
       else 0) :=
  http_error_percentage_rounded_formula [⟨3⟩] [⟨1⟩] []
    (by intro dp hdp; simp at hdp; simp [hdp]) (by intro dp hdp; simp at hdp)

/-- C3 amended-theorem witness: the `avg_cpu` closed form at the empty
cluster. -/
theorem summarizer_aggregates_closed_form_witness :
    (summarize_cluster ([] : List ServiceRecord)).avg_cpu =
      (([] : List ServiceRecord).map
        (fun s => if s.metrics.cpu ≠ [] then meanAvg s.metrics.cpu else 0)).sum /
        ([] : List ServiceRecord).length :=
  (summarizer_aggregates_closed_form []).1

/-!
JSON-ish values: Python dicts whose key sets the claims inspect are embedded
as insertion-ordered association lists of `JValue`.
-/

/-- A JSON value as produced by the recommenders. -/
inductive JValue where
  | str : String → JValue
  | num : ℚ → JValue
  | arr : List JValue → JValue
  | obj : List (String × JValue) → JValue

/-- The `suggested_capacity` dict of the account-wide fallback entry. -/
structure SuggestedCapacity where
  desired_count : String
  cpu : String
  memory : String
deriving DecidableEq

def fallbackSuggestedCapacity : SuggestedCapacity :=
  ⟨ "increase by 1-2 tasks", "consider increasing CPU allocation", "monitor memory usage"⟩

/-- One element of the fallback `scaling_recommendations` list. -/
structure ScalingRec where
  cluster : String
  service : String
  action : String
  reason : String
  suggested_capacity : SuggestedCapacity
deriving DecidableEq

/-- The dict literal appended by `_fallback_recommendations` for one high-CPU
service (`ai_recommender.py` lines 354-366). -/
def mkScaleUp (cluster service : String) : ScalingRec :=
  ⟨cluster, service, "scale_up", "High CPU utilization detected", fallbackSuggestedCapacity⟩

/-- JSON rendering of a scaling recommendation entry (field order of the
Python dict literal). -/
def ScalingRec.toJ (r : ScalingRec) : JValue :=
  .obj [("cluster", .str r.cluster), ("service", .str r.service),
        ("action", .str r.action), ("reason", .str r.reason),
        ("suggested_capacity",
          .obj [("desired_count", .str r.suggested_capacity.desired_count),
                ("cpu", .str r.suggested_capacity.cpu),
                ("memory", .str r.suggested_capacity.memory)])]

/-!
`AIRecommender._analyze_logs` (`ai_recommender.py` lines 200-240).
-/

/-- ASCII lowering standing in for Python `str.lower` (all keywords searched
by the code are ASCII). -/
def pyLower (s : String) : String := String.mk (s.data.map Char.toLower)

/-- `sub in s` on character lists. -/
def containsSub (s sub : List Char) : Bool :=
  sub.isPrefixOf s ||
    (match s with
     | [] => false
     | _ :: t => containsSub t sub)

/-- Python substring membership `sub in s`. -/
def strContains (s sub : String) : Bool := containsSub s.data sub.data

def error_keywords : List String := ["error", "exception", "failed"]

def error_types : List String := ["outofmemory", "connection", "timeout", "permission"]

def warning_keywords : List String := ["warning", "warn"]

/-- `common_errors[error_type] = common_errors.get(error_type, 0) + 1` with
Python-dict insertion-order semantics. -/
def bumpCount : List (String × ℕ) → String → List (String × ℕ)
  | [], k => [(k, 1)]
  | (k₁, n) :: rest, k =>
    if k₁ = k then (k₁, n + 1) :: rest else (k₁, n) :: bumpCount rest k

/-- The per-cluster analysis dict built by `_analyze_logs`. -/
structure LogAnalysis where
  total_logs : ℕ
  error_count : ℕ
  warning_count : ℕ
  common_errors : List (String × ℕ)
  error_rate : ℚ
deriving DecidableEq

/-- Body of the `for message in log_messages` loop: the accumulator is
`(error_count, warning_count, common_errors)`. -/
def processLogMessage (acc : ℕ × ℕ × List (String × ℕ)) (message : String) :
    ℕ × ℕ × List (String × ℕ) :=
  let message_lower := pyLower message
  let acc1 :=
    if error_keywords.any (fun k => strContains message_lower k) then
      let common := error_types.foldl
        (fun ce et => if strContains message_lower et then bumpCount ce et else ce) acc.2.2
      (acc.1 + 1, acc.2.1, common)
    else acc
  if warning_keywords.any (fun k => strContains message_lower k) then
    (acc1.1, acc1.2.1 + 1, acc1.2.2)
  else acc1

/-- `_analyze_logs` restricted to one cluster's message list. -/
def analyze_logs_cluster (log_messages : List String) : LogAnalysis :=
  let acc := log_messages.foldl processLogMessage (0, 0, [])
  { total_logs := log_messages.length
    error_count := acc.1
    warning_count := acc.2.1
    common_errors := acc.2.2
    error_rate := if log_messages ≠ [] then (acc.1 : ℚ) / log_messages.length else 0 }

/-- `AIRecommender._analyze_logs`. -/
def analyze_logs (logs : List (String × List String)) : List (String × LogAnalysis) :=
  logs.map (fun p => (p.1, analyze_logs_cluster p.2))

/-- The `analysis_data` dict built at the top of `generate_recommendations`
(`ai_recommender.py` lines 44-49). -/
structure AnalysisData where
  timestamp : String
  metrics_summary : List (String × ClusterSummary)
  log_analysis : List (String × LogAnalysis)
  clusters : List String

def mkAnalysisData (timestamp : String) (metrics : List (String × List ServiceRecord))
    (logs : List (String × List String)) : AnalysisData :=
  ⟨timestamp, summarize_metrics metrics, analyze_logs logs, metrics.map Prod.fst⟩

/-!
`AIRecommender._fallback_recommendations` (`ai_recommender.py` lines 325-369).
-/

/-- The `scaling_recommendations` list the fallback builds: one `scale_up`
entry per name in each cluster's `high_cpu_services`, in iteration order. -/
def fallback_scaling_recommendations (metrics_summary : List (String × ClusterSummary)) :
    List ScalingRec :=
  metrics_summary.flatMap (fun p => p.2.high_cpu_services.map (fun service => mkScaleUp p.1 service))

/-- `_fallback_recommendations`: the fixed six-key dict with `overall_health`
`"warning"` and the scale-up entries appended into `scaling_recommendations`.
`data.get("timestamp", ...)` always finds the key on the `analysis_data`
shape, so the timestamp field is read directly. -/
def fallback_recommendations (data : AnalysisData) : List (String × JValue) :=
  [("overall_health", .str "warning"),
   ("scaling_recommendations",
     .arr ((fallback_scaling_recommendations data.metrics_summary).map ScalingRec.toJ)),
   ("performance_issues", .arr []),
   ("cost_optimization", .arr []),
   ("summary", .str "Basic analysis completed. Manual review recommended."),
   ("generated_at", .str data.timestamp)]

/-!
`ai_recommender_service._fallback_service_recommendations`
(`ai_recommender_service.py` lines 95-157).
-/

/-- The `service_data` dict of `generate_service_recommendations`
(`ai_recommender_service.py` lines 20-32). -/
structure ServiceData where
  service_name : String
  cluster_name : String
  metrics : ServiceMetrics
  logs_count : ℕ
  error_logs : List String

/-- A log line matching the error-keyword filter of `service_data["error_logs"]`. -/
def isErrorLog (log : String) : Bool :=
  error_keywords.any (fun k => strContains (pyLower log) k)

def mkServiceData (metrics : ServiceMetrics) (logs : List String)
    (cluster_name service_name : String) : ServiceData :=
  ⟨service_name, cluster_name, metrics, logs.length, logs.filter isErrorLog⟩

/-- `_fallback_service_recommendations`: the missing-metrics early return and
the threshold-driven health/action/recommendation updates. -/
def fallback_service_recommendations (sd : ServiceData) : List (String × JValue) :=
  let metrics := sd.metrics
  let cpu_data := metrics.cpu
  let memory_data := metrics.memory
  if cpu_data = [] ∧ memory_data = [] then
    [("service_health", .str "warning"),
     ("scaling_action", .str "no_change"),
     ("reason", .str "Unable to assess service performance due to missing CPU and memory metrics data. The metrics arrays are empty, indicating a potential monitoring issue."),
     ("recommendations",
       .arr [.str "Verify CloudWatch metrics collection is enabled for this service",
             .str "Check IAM permissions for CloudWatch:GetMetricStatistics",
             .str "Ensure ECS service has proper task definition with awslogs driver"]),
     ("priority", .str "medium")]
  else
    let health := "good"
    let action := "no_change"
    let recommendations : List JValue := []
    let step1 : String × String × List JValue :=
      if cpu_data ≠ [] ∧ meanAvg cpu_data > Config.CPU_HIGH_THRESHOLD then
        ("warning", "scale_up",
          recommendations ++ [.str "High CPU usage detected - consider scaling up"])
      else (health, action, recommendations)
    let step2 : String × String × List JValue :=
      if memory_data ≠ [] ∧ meanAvg memory_data > Config.MEMORY_HIGH_THRESHOLD then
        ((if step1.1 = "warning" then "critical" else "warning"), "scale_up",
          step1.2.2 ++ [.str "High memory usage detected - consider scaling up"])
      else step1
    let step3 : String × List JValue :=
      if sd.error_logs.length > Config.ERROR_LOG_THRESHOLD then
        ("warning", step2.2.2 ++ [.str "High error rate in logs - investigate application issues"])
      else (step2.1, step2.2.2)
    [("service_health", .str step3.1),
     ("scaling_action", .str step2.2.1),
     ("reason", .str ("Analysis of " ++ sd.service_name ++ " metrics and logs")),
     ("recommendations",
       .arr (if step3.2.isEmpty then [.str "Service appears healthy"] else step3.2)),
     ("priority",
       .str (if step3.1 = "critical" then "high"
             else if step3.1 = "warning" then "medium" else "low"))]

/-- C4: on every branch, both fallback builders return dicts with exactly the
documented top-level key lists: the account-wide shape has
`overall_health, scaling_recommendations, performance_issues,
cost_optimization, summary, generated_at` and the per-service shape has
`service_health, scaling_action, reason, recommendations, priority`. -/
theorem fallback_key_sets :
    (∀ data : AnalysisData,
      (fallback_recommendations data).map Prod.fst =
        ["overall_health", "scaling_recommendations", "performance_issues",
         "cost_optimization", "summary", "generated_at"]) ∧
    (∀ sd : ServiceData,
      (fallback_service_recommendations sd).map Prod.fst =
        ["service_health", "scaling_action", "reason", "recommendations", "priority"]) := by
  refine ⟨fun data => rfl, fun sd => ?_⟩
  simp only [fallback_service_recommendations]
  split <;> rfl

/-- C4 witness: the account-wide key list at a concrete analysis input. -/
theorem fallback_key_sets_witness :
    (fallback_recommendations ⟨ "ts", [], [], []⟩).map Prod.fst =
      ["overall_health", "scaling_recommendations", "performance_issues",
       "cost_optimization", "summary", "generated_at"] :=
  fallback_key_sets.1 ⟨ "ts", [], [], []⟩

lemma count_map_mkScaleUp (c v c₁ : String) (l : List String) :
    ((l.map (fun service => mkScaleUp c₁ service)).count (mkScaleUp c v)) =
      if c₁ = c then l.count v else 0 := by
  induction l with
  | nil => simp
  | cons hd tl ih =>
    simp only [List.map_cons, List.count_cons, ih, beq_iff_eq]
    by_cases hc : c₁ = c
    · subst hc
      by_cases hv : hd = v
      · simp [hv, mkScaleUp]
      · simp [hv, mkScaleUp]
    · simp [hc, mkScaleUp]

/-- C5: for every analysis-data input, the account-wide fallback reports
`overall_health = "warning"`, every `scaling_recommendations` entry is the
fixed scale-up dict (`action = "scale_up"`,
`reason = "High CPU utilization detected"`) for some cluster and some service
of its `high_cpu_services` list, and the number of entries for a given
(cluster, service) pair equals the number of times that service occurs in
that cluster's `high_cpu_services`: exactly one entry per listed service and
no others. -/
theorem fallback_warning_and_scale_up_entries :
    ∀ data : AnalysisData,
      List.lookup "overall_health" (fallback_recommendations data) = some (.str "warning") ∧
      (∀ r ∈ fallback_scaling_recommendations data.metrics_summary,
        ∃ p ∈ data.metrics_summary, ∃ v ∈ p.2.high_cpu_services, r = mkScaleUp p.1 v) ∧
      (∀ cluster service,
        (fallback_scaling_recommendations data.metrics_summary).count (mkScaleUp cluster service) =
          ((data.metrics_summary).map
            (fun p => if p.1 = cluster then p.2.high_cpu_services.count service else 0)).sum) := by
  intro data
  refine ⟨rfl, ?_, ?_⟩
  · intro r hr
    simp only [fallback_scaling_recommendations, List.mem_flatMap, List.mem_map] at hr
    obtain ⟨p, hp, v, hv, rfl⟩ := hr
    exact ⟨p, hp, v, hv, rfl⟩
  · intro cluster service
    induction data.metrics_summary with
    | nil => rfl
    | cons hd tl ih =>
      simp only [fallback_scaling_recommendations, List.flatMap_cons, List.count_append,
        List.map_cons, List.sum_cons] at ih ⊢
      rw [count_map_mkScaleUp, ih]

/-- C5 witness: `overall_health` of the fallback at a concrete analysis
input. -/
theorem fallback_warning_and_scale_up_entries_witness :
    List.lookup "overall_health" (fallback_recommendations ⟨ "ts", [], [], []⟩) =
      some (.str "warning") :=
  (fallback_warning_and_scale_up_entries ⟨ "ts", [], [], []⟩).1

/-!
JSON extraction from the model reply: `ai_response.find` / `rfind` over `{`
and `}` plus slicing, shared by `_parse_recommendations` and
`generate_service_recommendations`. The `json.loads` library call is an
oracle parameter `loads` returning `none` when parsing raises. -/

def lbrace : Char := Char.ofNat 123

def rbrace : Char := Char.ofNat 125

/-- Python `s.find(c)`: first index or -1. -/
def pyFind (s : List Char) (c : Char) : Int :=
  match s.findIdx? (· = c) with
  | some i => (i : Int)
  | none => -1

/-- Python `s.rfind(c)`: last index or -1. -/
def pyRfind (s : List Char) (c : Char) : Int :=
  match s.reverse.findIdx? (· = c) with
  | some i => (s.length : Int) - 1 - (i : Int)
  | none => -1

/-- Python `s[a:b]` for the nonnegative indices produced at the call sites. -/
def pySlice (s : List Char) (a b : Int) : List Char := (s.take b.toNat).drop a.toNat

/-- Python dict item assignment `d[k] = v`: overwrite in place, else append. -/
def pyDictSet {β : Type} : List (String × β) → String → β → List (String × β)
  | [], k, v => [(k, v)]
  | (k₁, v₁) :: rest, k, v =>
    if k₁ = k then (k₁, v) :: rest else (k₁, v₁) :: pyDictSet rest k v

/-- `AIRecommender._parse_recommendations` (`ai_recommender.py` lines
298-323): extract the text between the first `{` and the last `}`, parse it,
add `generated_at`, and fall back on any failure (note `end_idx` is
`rfind + 1`, and the guard tests `end_idx != -1`). -/
def parse_recommendations (loads : List Char → Option (List (String × JValue)))
    (ai_response : List Char) (data : AnalysisData) : List (String × JValue) :=
  let start_idx := pyFind ai_response lbrace
  let end_idx := pyRfind ai_response rbrace + 1
  if start_idx ≠ -1 ∧ end_idx ≠ -1 then
    match loads (pySlice ai_response start_idx end_idx) with
    | some recommendations => pyDictSet recommendations "generated_at" (.str data.timestamp)
    | none => fallback_recommendations data
  else
    fallback_recommendations data

/-- `AIRecommender.generate_recommendations` (`ai_recommender.py` lines
40-95). The missing Bedrock client is `bedrockAvailable = false`; the
`converse` oracle yields the model text or the exception the `except` block
catches. Totality of this function embeds the no-raise behaviour. -/
def generate_recommendations (bedrockAvailable : Bool)
    (converse : Except Unit (List Char))
    (loads : List Char → Option (List (String × JValue)))
    (now : String) (metrics : List (String × List ServiceRecord))
    (logs : List (String × List String)) : List (String × JValue) :=
  let analysis_data := mkAnalysisData now metrics logs
  if ¬ bedrockAvailable then fallback_recommendations analysis_data
  else
    match converse with
    | .error _ => fallback_recommendations analysis_data
    | .ok ai_recommendations => parse_recommendations loads ai_recommendations analysis_data

/-- No JSON object is parseable between the first `{` and the last `}` of
`text` (covering the cases the code guards: no `{`, guard on `end_idx`, or
`json.loads` raising). -/
def noEmbeddedJson (loads : List Char → Option (List (String × JValue)))
    (text : List Char) : Prop :=
  pyFind text lbrace = -1 ∨ pyRfind text rbrace + 1 = -1 ∨
    loads (pySlice text (pyFind text lbrace) (pyRfind text rbrace + 1)) = none

/-- C7: whenever the model client is absent, the model call fails, or the
returned text has no parseable JSON between its first `{` and last `}`,
`generate_recommendations` returns the deterministic fallback (and, being a
total function of its inputs, never surfaces an error). -/
theorem generate_recommendations_falls_back :
    ∀ (bedrockAvailable : Bool) (converse : Except Unit (List Char))
      (loads : List Char → Option (List (String × JValue)))
      (now : String) (metrics : List (String × List ServiceRecord))
      (logs : List (String × List String)),
      (bedrockAvailable = false ∨ converse = .error () ∨
        (∀ text, converse = .ok text → noEmbeddedJson loads text)) →
      generate_recommendations bedrockAvailable converse loads now metrics logs =
        fallback_recommendations (mkAnalysisData now metrics logs) := by
  intro b conv loads now metrics logs h
  rcases h with h | h | h
  · subst h; rfl
  · subst h; cases b <;> rfl
  · cases b with
    | false => rfl
    | true =>
      cases conv with
      | error e => rfl
      | ok text =>
        have hj := h text rfl
        have hstep : generate_recommendations true (.ok text) loads now metrics logs =
            parse_recommendations loads text (mkAnalysisData now metrics logs) := rfl
        rw [hstep]
        simp only [parse_recommendations]
        rcases hj with hj | hj | hj
        · rw [if_neg (by simp [hj])]
        · rw [if_neg (by simp [hj])]
        · by_cases hc : pyFind text lbrace ≠ -1 ∧ pyRfind text rbrace + 1 ≠ -1
          · rw [if_pos hc, hj]
          · rw [if_neg hc]

/-- C7 witness: with no Bedrock client the result is the fallback. -/
theorem generate_recommendations_falls_back_witness :
    generate_recommendations false (.error ()) (fun _ => none) "t" [] [] =
      fallback_recommendations (mkAnalysisData "t" [] []) :=
  generate_recommendations_falls_back false (.error ()) (fun _ => none) "t" [] []
    (Or.inl rfl)

/-- `ai_recommender_service.generate_service_recommendations`
(`ai_recommender_service.py` lines 10-92): missing-metrics early return,
missing-client early return, model call, inline JSON extraction, fallback on
any failure. -/
def generate_service_recommendations (bedrockAvailable : Bool)
    (converse : Except Unit (List Char))
    (loads : List Char → Option (List (String × JValue)))
    (metrics : ServiceMetrics) (logs : List String)
    (cluster_name service_name : String) : List (String × JValue) :=
  let service_data := mkServiceData metrics logs cluster_name service_name
  let cpu_data := metrics.cpu
  let memory_data := metrics.memory
  if cpu_data = [] ∧ memory_data = [] then
    fallback_service_recommendations service_data
  else if ¬ bedrockAvailable then
    fallback_service_recommendations service_data
  else
    match converse with
    | .error _ => fallback_service_recommendations service_data
    | .ok ai_response =>
      let start_idx := pyFind ai_response lbrace
      let end_idx := pyRfind ai_response rbrace + 1
      if start_idx ≠ -1 ∧ end_idx ≠ -1 then
        match loads (pySlice ai_response start_idx end_idx) with
        | some parsed => parsed
        | none => fallback_service_recommendations service_data
      else fallback_service_recommendations service_data

/-- C6: for a service whose CPU and memory sample lists are both empty (or
missing), `generate_service_recommendations` returns the fallback response —
independently of the model client, the model call outcome and the JSON
parser, i.e. the hosted model is never consulted — and that response has
`service_health = "warning"`, `scaling_action = "no_change"`, and a
recommendation asking to verify CloudWatch metrics collection. -/
theorem empty_metrics_service_fallback :
    ∀ (bedrockAvailable : Bool) (converse : Except Unit (List Char))
      (loads : List Char → Option (List (String × JValue)))
      (metrics : ServiceMetrics) (logs : List String)
      (cluster_name service_name : String),
      metrics.cpu = [] → metrics.memory = [] →
      generate_service_recommendations bedrockAvailable converse loads metrics logs
          cluster_name service_name =
        fallback_service_recommendations (mkServiceData metrics logs cluster_name service_name) ∧
      List.lookup "service_health"
          (generate_service_recommendations bedrockAvailable converse loads metrics logs
            cluster_name service_name) = some (.str "warning") ∧
      List.lookup "scaling_action"
          (generate_service_recommendations bedrockAvailable converse loads metrics logs
            cluster_name service_name) = some (.str "no_change") ∧
      (∃ recs, List.lookup "recommendations"
          (generate_service_recommendations bedrockAvailable converse loads metrics logs
            cluster_name service_name) = some (.arr recs) ∧
        JValue.str "Verify CloudWatch metrics collection is enabled for this service" ∈ recs) := by
  intro b conv loads metrics logs cluster_name service_name h1 h2
  have hgen : generate_service_recommendations b conv loads metrics logs
      cluster_name service_name =
      fallback_service_recommendations (mkServiceData metrics logs cluster_name service_name) := by
    simp [generate_service_recommendations, h1, h2]
  have hfb : fallback_service_recommendations (mkServiceData metrics logs cluster_name service_name) =
      [("service_health", .str "warning"),
       ("scaling_action", .str "no_change"),
       ("reason", .str "Unable to assess service performance due to missing CPU and memory metrics data. The metrics arrays are empty, indicating a potential monitoring issue."),
       ("recommendations",
         .arr [.str "Verify CloudWatch metrics collection is enabled for this service",
               .str "Check IAM permissions for CloudWatch:GetMetricStatistics",
               .str "Ensure ECS service has proper task definition with awslogs driver"]),
       ("priority", .str "medium")] := by
    simp [fallback_service_recommendations, mkServiceData, h1, h2]
  refine ⟨hgen, ?_, ?_, ?_⟩
  · rw [hgen, hfb]; rfl
  · rw [hgen, hfb]; rfl
  · rw [hgen, hfb]
    exact ⟨_, rfl, by simp⟩

/-- C6 witness: concrete empty-metrics service. -/
theorem empty_metrics_service_fallback_witness :
    generate_service_recommendations true (.ok []) (fun _ => none) ⟨[], []⟩ [] "c" "s" =
      fallback_service_recommendations (mkServiceData ⟨[], []⟩ [] "c" "s") ∧
    List.lookup "service_health"
        (generate_service_recommendations true (.ok []) (fun _ => none) ⟨[], []⟩ [] "c" "s") =
      some (.str "warning") :=
  ⟨(empty_metrics_service_fallback true (.ok []) (fun _ => none) ⟨[], []⟩ [] "c" "s" rfl rfl).1,
   (empty_metrics_service_fallback true (.ok []) (fun _ => none) ⟨[], []⟩ [] "c" "s" rfl rfl).2.1⟩

/-!
`KnowledgeDB.store_recommendations` / `get_current_recommendations`
(`knowledge_db.py` lines 78-95 and 120-138). The DynamoDB table is a
key-value map addressed by `(pk, sk)`; `put_item` replaces any item with the
same key. The code stores `json.dumps(recommendations)` and reads it back
through `json.loads`; for the JSON-serializable dicts the claim quantifies
over, this library round-trip is the identity on structured content, so the
marshalled payload is carried as its structured value. A `writeOk`/`readOk`
oracle models the `except` blocks around the DynamoDB calls (a failed call is
swallowed: the write becomes a no-op, the read returns `{}`). -/

def Config.RECOMMENDATIONS_TTL : ℤ := 2592000

/-- The item dict written by `store_recommendations`. -/
structure KdbItem where
  pk : String
  sk : String
  account_id : String
  timestamp : String
  recommendations : List (String × JValue)
  ttl : ℤ

/-- The knowledge table: availability flag (`self.table` possibly `None`) and
the key-value content. -/
structure KnowledgeDBState where
  tableAvailable : Bool
  items : List ((String × String) × KdbItem)

/-- DynamoDB `put_item`: replace the item with this `(pk, sk)` key. -/
def putItem (items : List ((String × String) × KdbItem)) (it : KdbItem) :
    List ((String × String) × KdbItem) :=
  ((it.pk, it.sk), it) :: items.filter (fun p => decide (p.1 ≠ (it.pk, it.sk)))

/-- DynamoDB `get_item` on the modelled table. -/
def lookupItem : List ((String × String) × KdbItem) → (String × String) → Option KdbItem
  | [], _ => none
  | (k, it) :: rest, key => if k = key then some it else lookupItem rest key

/-- `KnowledgeDB.store_recommendations`. -/
def store_recommendations (db : KnowledgeDBState) (writeOk : Bool) (account_id : String)
    (recommendations : List (String × JValue)) (now : String) (nowEpoch : ℤ) :
    KnowledgeDBState :=
  if ¬ db.tableAvailable then db
  else if ¬ writeOk then db
  else
    { db with items := (putItem db.items
        ⟨ "ACCOUNT#" ++ account_id, "RECOMMENDATIONS", account_id, now, recommendations,
          nowEpoch + Config.RECOMMENDATIONS_TTL⟩) }

/-- `KnowledgeDB.get_current_recommendations`: parse the stored payload and
set `rec["stored_at"]` to the item's write timestamp. -/
def get_current_recommendations (db : KnowledgeDBState) (readOk : Bool) (account_id : String) :
    List (String × JValue) :=
  if ¬ db.tableAvailable then []
  else if ¬ readOk then []
  else
    match lookupItem db.items ("ACCOUNT#" ++ account_id, "RECOMMENDATIONS") with
    | some item => pyDictSet item.recommendations "stored_at" (.str item.timestamp)
    | none => []

lemma pyDictSet_append_of_lookup_none {β : Type} (l : List (String × β)) (k : String) (v : β)
    (h : List.lookup k l = none) : pyDictSet l k v = l ++ [(k, v)] := by
  induction l with
  | nil => rfl
  | cons hd tl ih =>
    obtain ⟨k₁, v₁⟩ := hd
    simp only [List.lookup] at h
    by_cases hk : k = k₁
    · simp [hk] at h
    · have hbeq : (k == k₁) = false := beq_eq_false_iff_ne.mpr hk
      rw [hbeq] at h
      simp only [pyDictSet]
      rw [if_neg (fun hc => hk hc.symm), ih h]
      rfl

/-- C8: with the store available and neither the write nor the read failing,
storing a recommendations dict and retrieving it for the same account returns
the stored structured content with the single server-added change
`rec["stored_at"] = write timestamp`; in particular, when the stored dict had
no `stored_at` key, the result is exactly the stored dict plus that one
appended field. -/
theorem store_get_recommendations_round_trip :
    ∀ (db : KnowledgeDBState) (account_id now : String) (nowEpoch : ℤ)
      (recommendations : List (String × JValue)),
      db.tableAvailable = true →
      get_current_recommendations
          (store_recommendations db true account_id recommendations now nowEpoch)
          true account_id =
        pyDictSet recommendations "stored_at" (.str now) ∧
      (List.lookup "stored_at" recommendations = none →
        get_current_recommendations
            (store_recommendations db true account_id recommendations now nowEpoch)
            true account_id =
          recommendations ++ [("stored_at", .str now)]) := by
  intro db account_id now nowEpoch recommendations htable
  have hstore : store_recommendations db true account_id recommendations now nowEpoch =
      { db with items := (putItem db.items
          ⟨ "ACCOUNT#" ++ account_id, "RECOMMENDATIONS", account_id, now, recommendations,
            nowEpoch + Config.RECOMMENDATIONS_TTL⟩) } := by
    simp [store_recommendations, htable]
  have hget : get_current_recommendations
      (store_recommendations db true account_id recommendations now nowEpoch)
      true account_id = pyDictSet recommendations "stored_at" (.str now) := by
    rw [hstore]
    simp [get_current_recommendations, htable, putItem, lookupItem]
  exact ⟨hget, fun hnone => by
    rw [hget, pyDictSet_append_of_lookup_none recommendations "stored_at" (.str now) hnone]⟩

/-- C8 witness: a concrete one-key dict round-trips through an available
empty store. -/
theorem store_get_recommendations_round_trip_witness :
    get_current_recommendations
        (store_recommendations ⟨true, []⟩ true "acct" [("overall_health", .str "good")] "t1" 0)
        true "acct" =
      pyDictSet [("overall_health", .str "good")] "stored_at" (.str "t1") :=
  (store_get_recommendations_round_trip ⟨true, []⟩ "acct" "t1" 0
    [("overall_health", .str "good")] rfl).1

/-!
The chat-history manipulation of the `/chat/{account_id}` endpoint
(`app.py` lines 1776-1934). Only the history state is modelled: the enhanced
system message that the frontend-context block (lines 1782-1877) may build is
an oracle `enhanced_system : Option String` (`none` when `context` is falsy
or yields no details) — that block only ever overwrites message 0 of the
history and is guarded by `len >= 2`. -/

/-- A chat message `{"role": ..., "content": [{"text": ...}]}`. -/
structure ChatMsg where
  role : String
  text : String
deriving DecidableEq

/-- The default system message installed when the account has no history. -/
def default_system_msg : ChatMsg :=
  ⟨ "system",
    "You are an AWS ECS expert assistant. Help users with ECS recommendations and scenarios."⟩

/-- Python `l[-n:]` (for `n = 0` this is the whole list). -/
def pyLastSlice {α : Type} (l : List α) (n : ℕ) : List α :=
  if n = 0 then l else l.drop (l.length - n)

/-- Lines 1926-1932: `history[:1] + history[-CHAT_HISTORY_LIMIT:]` when the
history exceeds `CHAT_HISTORY_LIMIT + 1` messages. -/
def trimChatHistory (limit : ℕ) (h : List ChatMsg) : List ChatMsg :=
  if h.length > limit + 1 then h.take 1 ++ pyLastSlice h limit else h

/-- The `chat_history[account_id]` state transition performed by one call of
the chat endpoint: reset, context update of message 0, lazy initialisation,
user-message append, and — only when Bedrock is available and the `converse`
call does not raise — assistant-message append plus trimming. On the
unavailable and exception paths the appended user message is kept untrimmed
(the outer `except` only builds the error response). -/
def chat_endpoint_history (limit : ℕ) (table : List (String × List ChatMsg))
    (account_id : String) (reset_chat : Bool) (enhanced_system : Option String)
    (user_message : String) (bedrockAvailable : Bool) (converse : Except Unit String) :
    List (String × List ChatMsg) :=
  let t1 := if reset_chat then pyDictSet table account_id [] else table
  let t2 :=
    match enhanced_system, List.lookup account_id t1 with
    | some sys_text, some h =>
      if h.length ≥ 2 then pyDictSet t1 account_id (h.set 0 ⟨ "system", sys_text⟩) else t1
    | _, _ => t1
  let t3 :=
    match List.lookup account_id t2 with
    | none => pyDictSet t2 account_id [default_system_msg]
    | some _ => t2
  let h := (List.lookup account_id t3).getD []
  let t4 := pyDictSet t3 account_id (h ++ [⟨ "user", user_message⟩])
  if bedrockAvailable then
    match converse with
    | .ok ai_response =>
      let h₂ := (List.lookup account_id t4).getD []
      pyDictSet t4 account_id (trimChatHistory limit (h₂ ++ [⟨ "assistant", ai_response⟩]))
    | .error _ => t4
  else t4

lemma lookup_pyDictSet_self {β : Type} (t : List (String × β)) (k : String) (v : β) :
    List.lookup k (pyDictSet t k v) = some v := by
  induction t with
  | nil => simp [pyDictSet, List.lookup]
  | cons hd tl ih =>
    obtain ⟨k₁, v₁⟩ := hd
    by_cases hk : k₁ = k
    · simp [pyDictSet, hk, List.lookup]
    · have hbeq : (k == k₁) = false := beq_eq_false_iff_ne.mpr (fun hc => hk hc.symm)
      simp [pyDictSet, hk, List.lookup, hbeq, ih]

lemma trimChatHistory_length_le (limit : ℕ) (h : List ChatMsg) (hlim : 1 ≤ limit) :
    (trimChatHistory limit h).length ≤ limit + 1 := by
  unfold trimChatHistory pyLastSlice
  split
  · rename_i hgt
    rw [if_neg (by omega)]
    simp only [List.length_append, List.length_take, List.length_drop]
    omega
  · rename_i hle
    omega

/-- C9 counterexample: with `CHAT_HISTORY_LIMIT = 10` (the default) and an
account history already holding the cap of 11 messages, a chat call on which
Bedrock is unavailable appends the user message and performs no trimming,
leaving 12 messages — above the claimed cap of `CHAT_HISTORY_LIMIT + 1`. -/
theorem chat_history_cap_counterexample :
    ((List.lookup "a"
        (chat_endpoint_history Config.CHAT_HISTORY_LIMIT
          [("a", default_system_msg :: List.replicate 10 ⟨ "user", "m"⟩)]
          "a" false none "q" false (.error ()))).getD []).length = 12 ∧
    ¬ (12 ≤ Config.CHAT_HISTORY_LIMIT + 1) := by
  constructor
  · decide
  · decide

/-- C9 (amended): on every chat call whose Bedrock `converse` call succeeds,
the account's stored history afterwards holds at most
`CHAT_HISTORY_LIMIT + 1` messages (for any starting state and any configured
limit ≥ 1); the cap can be exceeded only on the paths where Bedrock is absent
or the call raises, which append the user message without trimming. -/
theorem chat_history_capped_on_success :
    ∀ (limit : ℕ) (table : List (String × List ChatMsg)) (account_id : String)
      (reset_chat : Bool) (enhanced_system : Option String)
      (user_message ai_response : String),
      1 ≤ limit →
      ((List.lookup account_id
          (chat_endpoint_history limit table account_id reset_chat enhanced_system
            user_message true (.ok ai_response))).getD []).length ≤ limit + 1 := by
  intro limit table account_id reset_chat enhanced_system user_message ai_response hlim
  simp only [chat_endpoint_history, if_true]
  rw [lookup_pyDictSet_self]
  simp only [Option.getD_some]
  exact trimChatHistory_length_le limit _ hlim

/-- C9 amended-theorem witness: a concrete successful call stays within the
cap. -/
theorem chat_history_capped_on_success_witness :
    ((List.lookup "a"
        (chat_endpoint_history Config.CHAT_HISTORY_LIMIT [] "a" false none "hi" true
          (.ok "ok"))).getD []).length ≤ Config.CHAT_HISTORY_LIMIT + 1 :=
  chat_history_capped_on_success Config.CHAT_HISTORY_LIMIT [] "a" false none "hi" "ok"
    (by decide)

/-!
`ECSMonitor.get_task_definition_details` (`ecs_monitor.py` lines 794-829) and
its caller `get_cluster_details` (lines 598-792). The local variable
`task_definition_details` is only assigned on the innermost success path, and
the function ends with `return task_definition_details`; an unassigned local
at that point raises `UnboundLocalError`, modelled as `Except.error`. -/

inductive PyError where
  | unboundLocal
deriving DecidableEq

/-- A container dict of `containerDefinitions` (fields read with `.get`). -/
structure ContainerIn where
  name : Option String
  cpu : Option ℚ
  memory : Option ℚ
  memoryReservation : Option ℚ
deriving DecidableEq

/-- The container summary built by the function (`cpu` defaulted to 0). -/
structure ContainerOut where
  name : Option String
  cpu : ℚ
  memory : Option ℚ
  memoryReservation : Option ℚ
deriving DecidableEq

def extractContainer (c : ContainerIn) : ContainerOut :=
  ⟨c.name, c.cpu.getD 0, c.memory, c.memoryReservation⟩

/-- The `taskDefinition` dict of a `describe_task_definition` response. -/
structure TaskDef where
  family : Option String
  revision : Option ℚ
  compatibilities : Option (List String)
  requiresCompatibilities : Option (List String)
  cpu : Option String
  memory : Option String
  containerDefinitions : Option (List ContainerIn)
deriving DecidableEq

/-- A `describe_task_definition` response; `taskDefinition` may be absent or
falsy. -/
structure TaskDefResponse where
  taskDefinition : Option TaskDef
deriving DecidableEq

/-- The `task_definition_details` dict built on the success path. -/
structure TaskDefinitionDetails where
  family : Option String
  revision : Option ℚ
  compatibilities : List String
  requiresCompatibilities : List String
  cpu : Option String
  memory : Option String
  containers : List ContainerOut
deriving DecidableEq

/-- The slice of a described service that this function reads:
`service["serviceName"]` and `service.get("taskDefinition")`, with `""`
standing for a missing or falsy task-definition field. -/
structure ServiceDesc where
  serviceName : String
  taskDefinition : String
deriving DecidableEq

/-- `ECSMonitor.get_task_definition_details`; the `describe_task_definition`
AWS call is an oracle, and the three paths that skip the assignment of
`task_definition_details` (falsy `taskDefinition`, an exception caught by the
inner `except`, and a response without a truthy `taskDefinition`) end in the
`UnboundLocalError` of the final `return`. -/
def get_task_definition_details (service : ServiceDesc)
    (describe_task_definition : String → Except Unit TaskDefResponse) :
    Except PyError TaskDefinitionDetails :=
  if service.taskDefinition ≠ "" then
    match describe_task_definition service.taskDefinition with
    | .error _ => .error .unboundLocal
    | .ok task_def_response =>
      match task_def_response.taskDefinition with
      | some task_def =>
        .ok { family := task_def.family
              revision := task_def.revision
              compatibilities := task_def.compatibilities.getD []
              requiresCompatibilities := task_def.requiresCompatibilities.getD []
              cpu := task_def.cpu
              memory := task_def.memory
              containers := (task_def.containerDefinitions.getD []).map extractContainer }
      | none => .error .unboundLocal
  else .error .unboundLocal

/-- One entry of the `services_details` list, restricted to the
task-definition dataflow relevant to the claim (the metric fields built by
`get_cluster_details` do not interact with the failure being analysed). -/
structure ClusterServiceDetail where
  service : String
  task_definition : TaskDefinitionDetails
deriving DecidableEq

/-- The service loop of `get_cluster_details` for one cluster: any raised
error aborts the loop and propagates to the surrounding `try`. -/
def cluster_services_task_details_loop (services : List ServiceDesc)
    (describe : String → Except Unit TaskDefResponse) :
    Except PyError (List ClusterServiceDetail) :=
  match services with
  | [] => .ok []
  | s :: rest =>
    match get_task_definition_details s describe with
    | .error e => .error e
    | .ok td =>
      match cluster_services_task_details_loop rest describe with
      | .error e => .error e
      | .ok l => .ok (⟨s.serviceName, td⟩ :: l)

/-- Lines 787-790: on any exception the cluster's detail list becomes `[]`. -/
def cluster_services_details (services : List ServiceDesc)
    (describe : String → Except Unit TaskDefResponse) : List ClusterServiceDetail :=
  match cluster_services_task_details_loop services describe with
  | .ok l => l
  | .error _ => []

lemma gtdd_error_of_empty (s : ServiceDesc)
    (d : String → Except Unit TaskDefResponse) (h : s.taskDefinition = "") :
    get_task_definition_details s d = .error .unboundLocal := by
  simp [get_task_definition_details, h]

lemma loop_error_of_mem (services : List ServiceDesc)
    (d : String → Except Unit TaskDefResponse)
    (h : ∃ s ∈ services, s.taskDefinition = "") :
    ∃ e, cluster_services_task_details_loop services d = .error e := by
  induction services with
  | nil =>
    obtain ⟨s, hs, _⟩ := h
    simp at hs
  | cons hd tl ih =>
    obtain ⟨s, hs, hemp⟩ := h
    rcases List.mem_cons.mp hs with rfl | hmem
    · exact ⟨.unboundLocal, by
        simp [cluster_services_task_details_loop, gtdd_error_of_empty s d hemp]⟩
    · obtain ⟨e, he⟩ := ih ⟨s, hmem, hemp⟩
      cases hh : get_task_definition_details hd d with
      | error e₁ => exact ⟨e₁, by simp [cluster_services_task_details_loop, hh]⟩
      | ok td => exact ⟨e, by simp [cluster_services_task_details_loop, hh, he]⟩

/-- C10: `get_task_definition_details` hits the unbound-local error on a
missing/falsy `taskDefinition` field; it returns a dict exactly when the
task-definition lookup succeeds (the describe call returns a response with a
truthy `taskDefinition`); and a caller cluster containing one service with a
missing task definition gets its entire detail list discarded (replaced by
`[]`). -/
theorem task_definition_details_unbound_local :
    (∀ (service : ServiceDesc) (describe : String → Except Unit TaskDefResponse),
      service.taskDefinition = "" →
      get_task_definition_details service describe = .error .unboundLocal) ∧
    (∀ (service : ServiceDesc) (describe : String → Except Unit TaskDefResponse),
      (∃ d, get_task_definition_details service describe = .ok d) ↔
        (service.taskDefinition ≠ "" ∧
          ∃ resp, describe service.taskDefinition = .ok resp ∧ resp.taskDefinition ≠ none)) ∧
    (∀ (services : List ServiceDesc) (describe : String → Except Unit TaskDefResponse),
      (∃ s ∈ services, s.taskDefinition = "") →
      cluster_services_details services describe = []) := by
  refine ⟨gtdd_error_of_empty, ?_, ?_⟩
  · intro service describe
    constructor
    · rintro ⟨r, hr⟩
      by_cases h : service.taskDefinition = ""
      · rw [gtdd_error_of_empty service describe h] at hr
        exact absurd hr (by simp)
      · refine ⟨h, ?_⟩
        simp only [get_task_definition_details, if_pos h] at hr
        cases hd : describe service.taskDefinition with
        | error e => rw [hd] at hr; exact absurd hr (by simp)
        | ok resp =>
          rw [hd] at hr
          cases htd : resp.taskDefinition with
          | none => simp [htd] at hr
          | some td => exact ⟨resp, rfl, by simp [htd]⟩
    · rintro ⟨h, resp, hd, hne⟩
      cases htd : resp.taskDefinition with
      | none => exact absurd htd hne
      | some td =>
        refine ⟨{ family := td.family, revision := td.revision,
                  compatibilities := td.compatibilities.getD [],
                  requiresCompatibilities := td.requiresCompatibilities.getD [],
                  cpu := td.cpu, memory := td.memory,
                  containers := (td.containerDefinitions.getD []).map extractContainer }, ?_⟩
        simp [get_task_definition_details, h, hd, htd]
  · intro services describe hex
    obtain ⟨e, he⟩ := loop_error_of_mem services describe hex
    simp [cluster_services_details, he]

/-- C10 witness: a concrete service record without a task definition makes
the function error out and empties its cluster's detail list. -/
theorem task_definition_details_unbound_local_witness :
    get_task_definition_details ⟨ "svc", ""⟩ (fun _ => .error ()) = .error .unboundLocal ∧
    cluster_services_details [⟨ "svc", ""⟩] (fun _ => .error ()) = [] :=
  ⟨task_definition_details_unbound_local.1 ⟨ "svc", ""⟩ (fun _ => .error ()) rfl,
   task_definition_details_unbound_local.2.2 [⟨ "svc", ""⟩] (fun _ => .error ())
     ⟨⟨ "svc", ""⟩, by simp, rfl⟩⟩

end EcsRec
